import Mathlib

/-!
Verification of the `backend/app` web-service scaffold: the settings loader
(`app/config.py`), the application assembler (`app/main.py`) and the health
router (`app/routers/health.py`).

The repository's own code declares the `Settings` fields with their defaults,
registers the health route under the `/api` path and returns the constant
health payload; those parts are embedded directly from the source.  The
machinery that executes them (the pydantic-settings resolution engine, the
HTTP dispatcher and the cross-origin middleware) is library code that is not
part of the repository, so those parts are modelled from the specification,
each such definition marked `Modelled from the spec`.
-/

/-- ASCII lower-casing of a character, as Python's `str.lower` acts on the
ASCII configuration names used by this program. -/
def lowerChar (c : Char) : Char :=
  if 'A' ≤ c ∧ c ≤ 'Z' then Char.ofNat (c.toNat + 32) else c

/-- ASCII lower-casing of a string. -/
def lowerStr (s : String) : String := String.mk (s.data.map lowerChar)

/-- Case-insensitive lookup in an association list of string pairs.  Modelled
from the spec: environment-variable names are matched case-insensitively to
field names (spec section 4.1), which is how pydantic-settings matches the
environment and the override file when `case_sensitive` is off. -/
def lookupCI (key : String) (kvs : List (String × String)) : Option String :=
  match kvs.find? (fun p => lowerStr p.1 == lowerStr key) with
  | some p => some p.2
  | none => none

/-- The configuration record declared by `class Settings(BaseSettings)` in
`src/backend/app/config.py`: fields `app_name : str`, `debug : bool`,
`cors_origins : list[str]`. -/
structure Settings where
  app_name : String
  debug : Bool
  cors_origins : List String
deriving DecidableEq

/-- Compiled-in default of `app_name` (`config.py` line 46). -/
def defaultAppName : String := "My App"

/-- Compiled-in default of `debug` (`config.py` line 47). -/
def defaultDebug : Bool := false

/-- Compiled-in default of `cors_origins` (`config.py` line 48). -/
def defaultCorsOrigins : List String := ["http://localhost:5173"]

/-- The `Settings` object built entirely from the compiled-in defaults. -/
def defaultSettings : Settings := ⟨defaultAppName, defaultDebug, defaultCorsOrigins⟩

/-- The `model_config` dictionary of the `Settings` class
(`src/backend/app/config.py`): it sets only the override-file path and its
encoding.  In particular it contains no `frozen` entry. -/
def modelConfig : List (String × String) :=
  [("env_file", ".env"), ("env_file_encoding", "utf-8")]

/-- Whether the `Settings` class is declared frozen.  Modelled from the spec
and the pydantic model configuration: attribute assignment on a pydantic
model is rejected exactly when the class sets `frozen` in `model_config`;
the class in `src/backend/app/config.py` sets no such key. -/
def settingsFrozen : Bool :=
  match lookupCI "frozen" modelConfig with
  | some v => v == "True"
  | none => false

/-- Attribute assignment `settings.debug = b` after construction.  Modelled
from the spec: the spec calls the object read-only; pydantic rejects the
assignment (raises) only when the class is frozen, otherwise the field is
updated in place. -/
def Settings.trySetDebug (s : Settings) (b : Bool) : Option Settings :=
  if settingsFrozen then none else some { s with debug := b }

/-- Boolean coercion of a provided string value.  Modelled from the spec:
type coercion of environment values to the declared field types (spec
section 4.1), as pydantic coerces strings to `bool` — the case-insensitive
tokens true/t/yes/y/on/1 and false/f/no/n/off/0 are accepted, everything
else is a coercion failure. -/
def parseBool (s : String) : Option Bool :=
  let t := lowerStr s
  if ["true", "t", "yes", "y", "on", "1"].contains t then some true
  else if ["false", "f", "no", "n", "off", "0"].contains t then some false
  else none

/-- Consume a JSON string literal after its opening quote; escapes are not
modelled (no claim input contains one).  Returns the literal and the rest. -/
def parseStringLit : List Char → Option (String × List Char)
  | [] => none
  | '"' :: rest => some ("", rest)
  | c :: rest =>
    match parseStringLit rest with
    | some (s, r) => some (String.mk (c :: s.data), r)
    | none => none

/-- Drop leading spaces. -/
def skipSpaces : List Char → List Char
  | ' ' :: rest => skipSpaces rest
  | cs => cs

/-- Parse the comma-separated string elements of a JSON list, up to and
including the closing bracket; fuelled to bound recursion. -/
def parseElems : Nat → List Char → Option (List String)
  | 0, _ => none
  | fuel + 1, cs =>
    match skipSpaces cs with
    | '"' :: r =>
      match parseStringLit r with
      | some (s, r2) =>
        match skipSpaces r2 with
        | ',' :: r3 =>
          match parseElems fuel r3 with
          | some tail => some (s :: tail)
          | none => none
        | ']' :: r3 => if skipSpaces r3 = [] then some [s] else none
        | _ => none
      | none => none
    | _ => none

/-- Coercion of a provided string to `list[str]`.  Modelled from the spec:
pydantic-settings decodes values for complex field types (such as
`cors_origins : list[str]`) as JSON, so only a JSON array of strings is
accepted; anything else — for example a comma-separated plain string — is a
coercion failure. -/
def parseJsonStrList (s : String) : Option (List String) :=
  match skipSpaces s.data with
  | '[' :: r =>
    match skipSpaces r with
    | ']' :: r2 => if skipSpaces r2 = [] then some [] else none
    | _ => parseElems (s.length + 1) r
  | _ => none

/-- Explicit constructor arguments to `Settings(...)`, each field optional
(the test-override channel named by spec section 4.1). -/
structure InitArgs where
  app_name : Option String
  debug : Option Bool
  cors_origins : Option (List String)

/-- Resolution of one declared field.  Modelled from the spec, section 4.1:
explicit constructor argument, then environment value, then override-file
value, then the compiled-in default; the first source that provides a value
wins, and a provided value that fails coercion is a configuration error. -/
def resolveField {α : Type} (fieldName : String) (init : Option α)
    (envVal fileVal : Option String) (parse : String → Option α) (dflt : α) :
    Except String α :=
  match init with
  | some v => Except.ok v
  | none =>
    match envVal with
    | some raw =>
      match parse raw with
      | some v => Except.ok v
      | none => Except.error ("invalid value for field " ++ fieldName)
    | none =>
      match fileVal with
      | some raw =>
        match parse raw with
        | some v => Except.ok v
        | none => Except.error ("invalid value for field " ++ fieldName)
      | none => Except.ok dflt

/-- Construction of the `Settings` object from constructor arguments, the
process environment and the override file.  The three fields, their types
and their defaults are those declared in `src/backend/app/config.py`; the
resolution of each field is `resolveField`, modelled from the spec. -/
def Settings.construct (init : InitArgs) (env file : List (String × String)) :
    Except String Settings :=
  match resolveField "app_name" init.app_name (lookupCI "app_name" env)
      (lookupCI "app_name" file) (fun v => some v) defaultAppName with
  | Except.error e => Except.error e
  | Except.ok an =>
    match resolveField "debug" init.debug (lookupCI "debug" env)
        (lookupCI "debug" file) parseBool defaultDebug with
    | Except.error e => Except.error e
    | Except.ok db =>
      match resolveField "cors_origins" init.cors_origins
          (lookupCI "cors_origins" env) (lookupCI "cors_origins" file)
          parseJsonStrList defaultCorsOrigins with
      | Except.error e => Except.error e
      | Except.ok co => Except.ok ⟨an, db, co⟩

/-- The constant payload returned by `health_check` in
`src/backend/app/routers/health.py`: the JSON object
with fields status = ok and version = 0.1.0, as an association list. -/
def health_check : List (String × String) :=
  [("status", "ok"), ("version", "0.1.0")]

/-- The route table of the health router (`routers/health.py`): one route,
`GET /health`, with no prefix of its own. -/
def routerRoutes : List (String × String) := [("GET", "/health")]

/-- The application route table after `app.include_router(health.router,
prefix="/api")` in `src/backend/app/main.py`: every router path gains the
`/api` path segment, so the health route is `GET /api/health`. -/
def appRoutes : List (String × String) :=
  routerRoutes.map (fun p => (p.1, "/api" ++ p.2))

/-- An HTTP request: method, path and headers. -/
structure Request where
  method : String
  path : String
  headers : List (String × String)

/-- An HTTP response: status code, JSON-object body (empty association list
when there is no body) and headers. -/
structure Response where
  status : Nat
  body : List (String × String)
  headers : List (String × String)

/-- The assembled application object, as configured by
`src/backend/app/main.py`: display title, the cross-origin policy arguments
passed to the middleware, and the route table. -/
structure App where
  title : String
  allow_origins : List String
  allow_credentials : Bool
  allow_methods : List String
  allow_headers : List String
  routes : List (String × String)

/-- Application assembly, from `src/backend/app/main.py`: the title is
`settings.app_name`; the middleware receives `allow_origins =
settings.cors_origins`, `allow_credentials = True`, `allow_methods = ["*"]`,
`allow_headers = ["*"]`; the health router is mounted under `/api`. -/
def buildApp (s : Settings) : App :=
  { title := s.app_name
    allow_origins := s.cors_origins
    allow_credentials := true
    allow_methods := ["*"]
    allow_headers := ["*"]
    routes := appRoutes }

/-- The response headers added by the cross-origin policy.  Modelled from the
spec, sections 4.2 and 6: when the request carries an Origin that is in the
allowed list, the response echoes that origin in
Access-Control-Allow-Origin together with Allow-Credentials true and the
wildcard Allow-Methods and Allow-Headers; when the origin is absent from the
list (or the request carries no Origin), no such headers are added. -/
def corsHeaders (a : App) (origin : Option String) : List (String × String) :=
  match origin with
  | some o =>
    if o ∈ a.allow_origins then
      [("Access-Control-Allow-Origin", o),
       ("Access-Control-Allow-Credentials", "true"),
       ("Access-Control-Allow-Methods", "*"),
       ("Access-Control-Allow-Headers", "*")]
    else []
  | none => []

/-- The result of dispatching a request: the response, and whether an
application handler function was invoked. -/
structure DispatchResult where
  resp : Response
  handlerRan : Bool

/-- Request dispatch of the assembled application.  Modelled from the spec,
sections 4.2, 6 and 7: an OPTIONS preflight probe is answered 200 by the
middleware without reaching any handler; a request matching the route table
invokes the registered handler (the only registered handler is
`health_check`, whose constant payload the framework serialises with status
200); any other request is a framework 404.  The cross-origin headers are
added to every response. -/
def dispatch (a : App) (req : Request) : DispatchResult :=
  if req.method = "OPTIONS" then
    ⟨⟨200, [], corsHeaders a (lookupCI "origin" req.headers)⟩, false⟩
  else if a.routes.contains (req.method, req.path) then
    ⟨⟨200, health_check, corsHeaders a (lookupCI "origin" req.headers)⟩, true⟩
  else
    ⟨⟨404, [], corsHeaders a (lookupCI "origin" req.headers)⟩, false⟩

/-- Process startup: settings construction followed by application assembly
(`app = FastAPI(...)` runs only after `settings = Settings()` succeeded).
A configuration error therefore yields no application object at all. -/
def startup (init : InitArgs) (env file : List (String × String)) :
    Except String App :=
  match Settings.construct init env file with
  | Except.error e => Except.error e
  | Except.ok s => Except.ok (buildApp s)

/-- The per-request step of the running process: the state (the settings
singleton) is carried along unchanged and a response is produced.  No
handler in the repository writes to the settings object. -/
def serveStep (st : Settings) (req : Request) : Settings × DispatchResult :=
  (st, dispatch (buildApp st) req)

/-- A provided value that fails coercion makes the field resolution a
configuration error when the environment is the first providing source. -/
lemma resolveField_env_bad {α : Type} {n raw : String} {fv : Option String}
    {p : String → Option α} {d : α} (hp : p raw = none) :
    resolveField n none (some raw) fv p d =
      Except.error ("invalid value for field " ++ n) := by
  have e1 : resolveField n none (some raw) fv p d = match p raw with
    | some v => Except.ok v
    | none => Except.error ("invalid value for field " ++ n) := rfl
  rw [e1, hp]

/-- A provided value that fails coercion makes the field resolution a
configuration error when the override file is the first providing source. -/
lemma resolveField_file_bad {α : Type} {n raw : String}
    {p : String → Option α} {d : α} (hp : p raw = none) :
    resolveField n none none (some raw) p d =
      Except.error ("invalid value for field " ++ n) := by
  have e1 : resolveField n none none (some raw) p d = match p raw with
    | some v => Except.ok v
    | none => Except.error ("invalid value for field " ++ n) := rfl
  rw [e1, hp]

/-- A successfully resolved field value comes from the first source that
provides one: the constructor argument, else a coerced environment value,
else a coerced file value, else the default. -/
lemma resolveField_cases {α : Type} {n : String} {init : Option α} {ev fv : Option String}
    {p : String → Option α} {d x : α}
    (h : resolveField n init ev fv p d = Except.ok x) :
    (init = some x) ∨
    (init = none ∧ ∃ raw, ev = some raw ∧ p raw = some x) ∨
    (init = none ∧ ev = none ∧ ∃ raw, fv = some raw ∧ p raw = some x) ∨
    (init = none ∧ ev = none ∧ fv = none ∧ x = d) := by
  cases init with
  | some v =>
    have h2 : Except.ok (ε := String) v = Except.ok x := h
    injection h2 with h3
    exact Or.inl (by rw [h3])
  | none =>
    cases ev with
    | some raw =>
      have e1 : resolveField n none (some raw) fv p d = match p raw with
        | some v => Except.ok v
        | none => Except.error ("invalid value for field " ++ n) := rfl
      rw [e1] at h
      cases hpr : p raw with
      | some v =>
        rw [hpr] at h
        injection h with h3
        exact Or.inr (Or.inl ⟨rfl, raw, rfl, by rw [hpr, h3]⟩)
      | none =>
        rw [hpr] at h
        exact absurd h (by simp)
    | none =>
      cases fv with
      | some raw =>
        have e1 : resolveField n none none (some raw) p d = match p raw with
          | some v => Except.ok v
          | none => Except.error ("invalid value for field " ++ n) := rfl
        rw [e1] at h
        cases hpr : p raw with
        | some v =>
          rw [hpr] at h
          injection h with h3
          exact Or.inr (Or.inr (Or.inl ⟨rfl, rfl, raw, rfl, by rw [hpr, h3]⟩))
        | none =>
          rw [hpr] at h
          exact absurd h (by simp)
      | none =>
        have h2 : Except.ok (ε := String) d = Except.ok x := h
        injection h2 with h3
        exact Or.inr (Or.inr (Or.inr ⟨rfl, rfl, rfl, h3.symm⟩))

/-- A successful construction resolves each of the three declared fields. -/
lemma construct_fields {init : InitArgs} {env file : List (String × String)} {s : Settings}
    (h : Settings.construct init env file = Except.ok s) :
    resolveField "app_name" init.app_name (lookupCI "app_name" env)
      (lookupCI "app_name" file) (fun v => some v) defaultAppName = Except.ok s.app_name ∧
    resolveField "debug" init.debug (lookupCI "debug" env)
      (lookupCI "debug" file) parseBool defaultDebug = Except.ok s.debug ∧
    resolveField "cors_origins" init.cors_origins (lookupCI "cors_origins" env)
      (lookupCI "cors_origins" file) parseJsonStrList defaultCorsOrigins =
      Except.ok s.cors_origins := by
  unfold Settings.construct at h
  split at h
  · exact absurd h (by simp)
  next an han =>
    split at h
    · exact absurd h (by simp)
    next db hdb =>
      split at h
      · exact absurd h (by simp)
      next co hco =>
        injection h with h4
        subst h4
        exact ⟨han, hdb, hco⟩

/-- Every response of the dispatcher carries exactly the cross-origin headers
computed from the request's Origin header. -/
lemma dispatch_headers (a : App) (req : Request) :
    (dispatch a req).resp.headers = corsHeaders a (lookupCI "origin" req.headers) := by
  unfold dispatch
  split
  · rfl
  · split <;> rfl

/-- C1: the operation GET /api/health takes no parameters and requires no
authentication (the response is the same for every header list, so for every
credential or its absence) and returns HTTP status 200 with exactly the JSON
body with status = ok and version = 0.1.0, for every configuration. -/
theorem health_endpoint_ok (s : Settings) (hdrs : List (String × String)) :
    (dispatch (buildApp s) ⟨"GET", "/api/health", hdrs⟩).resp.status = 200 ∧
    (dispatch (buildApp s) ⟨"GET", "/api/health", hdrs⟩).resp.body = health_check :=
  ⟨rfl, rfl⟩

/-- C2: for every declared Settings field, the constructed value is resolved
by the precedence order constructor argument, then case-insensitively
matched environment variable, then override-file value, then compiled-in
default; the first source that provides a value wins. -/
theorem settings_resolution_precedence (init : InitArgs) (env file : List (String × String))
    (s : Settings) (h : Settings.construct init env file = Except.ok s) :
    ((∀ v, init.app_name = some v → s.app_name = v) ∧
     (init.app_name = none → ∀ raw, lookupCI "app_name" env = some raw → s.app_name = raw) ∧
     (init.app_name = none → lookupCI "app_name" env = none →
       ∀ raw, lookupCI "app_name" file = some raw → s.app_name = raw) ∧
     (init.app_name = none → lookupCI "app_name" env = none →
       lookupCI "app_name" file = none → s.app_name = defaultAppName)) ∧
    ((∀ v, init.debug = some v → s.debug = v) ∧
     (init.debug = none → ∀ raw, lookupCI "debug" env = some raw →
       parseBool raw = some s.debug) ∧
     (init.debug = none → lookupCI "debug" env = none →
       ∀ raw, lookupCI "debug" file = some raw → parseBool raw = some s.debug) ∧
     (init.debug = none → lookupCI "debug" env = none →
       lookupCI "debug" file = none → s.debug = defaultDebug)) ∧
    ((∀ v, init.cors_origins = some v → s.cors_origins = v) ∧
     (init.cors_origins = none → ∀ raw, lookupCI "cors_origins" env = some raw →
       parseJsonStrList raw = some s.cors_origins) ∧
     (init.cors_origins = none → lookupCI "cors_origins" env = none →
       ∀ raw, lookupCI "cors_origins" file = some raw →
       parseJsonStrList raw = some s.cors_origins) ∧
     (init.cors_origins = none → lookupCI "cors_origins" env = none →
       lookupCI "cors_origins" file = none → s.cors_origins = defaultCorsOrigins)) := by
  obtain ⟨h1, h2, h3⟩ := construct_fields h
  refine ⟨⟨?_, ?_, ?_, ?_⟩, ⟨?_, ?_, ?_, ?_⟩, ⟨?_, ?_, ?_, ?_⟩⟩
  · intro v hv
    rcases resolveField_cases h1 with hc | ⟨hn, _⟩ | ⟨hn, _⟩ | ⟨hn, _⟩ <;> simp_all
  · intro h0 raw0 hraw0
    rcases resolveField_cases h1 with hc | ⟨hn, raw, hraw, hpr⟩ | ⟨hn, hev, raw, hraw, hpr⟩ |
      ⟨hn, hev, hfv, hd⟩ <;> simp_all
  · intro h0 he0 raw0 hraw0
    rcases resolveField_cases h1 with hc | ⟨hn, raw, hraw, hpr⟩ | ⟨hn, hev, raw, hraw, hpr⟩ |
      ⟨hn, hev, hfv, hd⟩ <;> simp_all
  · intro h0 he0 hf0
    rcases resolveField_cases h1 with hc | ⟨hn, raw, hraw, hpr⟩ | ⟨hn, hev, raw, hraw, hpr⟩ |
      ⟨hn, hev, hfv, hd⟩ <;> simp_all
  · intro v hv
    rcases resolveField_cases h2 with hc | ⟨hn, _⟩ | ⟨hn, _⟩ | ⟨hn, _⟩ <;> simp_all
  · intro h0 raw0 hraw0
    rcases resolveField_cases h2 with hc | ⟨hn, raw, hraw, hpr⟩ | ⟨hn, hev, raw, hraw, hpr⟩ |
      ⟨hn, hev, hfv, hd⟩ <;> simp_all
  · intro h0 he0 raw0 hraw0
    rcases resolveField_cases h2 with hc | ⟨hn, raw, hraw, hpr⟩ | ⟨hn, hev, raw, hraw, hpr⟩ |
      ⟨hn, hev, hfv, hd⟩ <;> simp_all
  · intro h0 he0 hf0
    rcases resolveField_cases h2 with hc | ⟨hn, raw, hraw, hpr⟩ | ⟨hn, hev, raw, hraw, hpr⟩ |
      ⟨hn, hev, hfv, hd⟩ <;> simp_all
  · intro v hv
    rcases resolveField_cases h3 with hc | ⟨hn, _⟩ | ⟨hn, _⟩ | ⟨hn, _⟩ <;> simp_all
  · intro h0 raw0 hraw0
    rcases resolveField_cases h3 with hc | ⟨hn, raw, hraw, hpr⟩ | ⟨hn, hev, raw, hraw, hpr⟩ |
      ⟨hn, hev, hfv, hd⟩ <;> simp_all
  · intro h0 he0 raw0 hraw0
    rcases resolveField_cases h3 with hc | ⟨hn, raw, hraw, hpr⟩ | ⟨hn, hev, raw, hraw, hpr⟩ |
      ⟨hn, hev, hfv, hd⟩ <;> simp_all
  · intro h0 he0 hf0
    rcases resolveField_cases h3 with hc | ⟨hn, raw, hraw, hpr⟩ | ⟨hn, hev, raw, hraw, hpr⟩ |
      ⟨hn, hev, hfv, hd⟩ <;> simp_all

/-- Witness for C2: with no sources providing values, the construction that
succeeds on the empty environment yields the three compiled-in defaults. -/
theorem settings_resolution_precedence_witness :
    defaultSettings.app_name = defaultAppName ∧
    defaultSettings.debug = defaultDebug ∧
    defaultSettings.cors_origins = defaultCorsOrigins :=
  ⟨(settings_resolution_precedence ⟨none, none, none⟩ [] [] defaultSettings rfl).1.2.2.2
     rfl rfl rfl,
   (settings_resolution_precedence ⟨none, none, none⟩ [] [] defaultSettings rfl).2.1.2.2.2
     rfl rfl rfl,
   (settings_resolution_precedence ⟨none, none, none⟩ [] [] defaultSettings rfl).2.2.2.2.2
     rfl rfl rfl⟩

/-- C3: a provided configuration value that cannot be coerced to its field's
declared type — from the environment or from the override file, for either
coercible field (a non-boolean string for debug, a non-JSON-list string for
cors_origins) — makes Settings construction a configuration error: no
Settings object is produced, and startup aborts before an application
object exists. -/
theorem bad_coercion_aborts (init : InitArgs) (env file : List (String × String)) (raw : String)
    (h : (init.debug = none ∧ parseBool raw = none ∧
           (lookupCI "debug" env = some raw ∨
            (lookupCI "debug" env = none ∧ lookupCI "debug" file = some raw))) ∨
         (init.cors_origins = none ∧ parseJsonStrList raw = none ∧
           (lookupCI "cors_origins" env = some raw ∨
            (lookupCI "cors_origins" env = none ∧
             lookupCI "cors_origins" file = some raw)))) :
    (∃ msg, Settings.construct init env file = Except.error msg) ∧
    (∃ msg, startup init env file = Except.error msg) := by
  have hc : ∃ msg, Settings.construct init env file = Except.error msg := by
    unfold Settings.construct
    cases h1 : resolveField "app_name" init.app_name (lookupCI "app_name" env)
        (lookupCI "app_name" file) (fun v => some v) defaultAppName with
    | error e => exact ⟨e, rfl⟩
    | ok an =>
      cases h2 : resolveField "debug" init.debug (lookupCI "debug" env)
          (lookupCI "debug" file) parseBool defaultDebug with
      | error e => exact ⟨e, rfl⟩
      | ok db =>
        cases h3 : resolveField "cors_origins" init.cors_origins
            (lookupCI "cors_origins" env) (lookupCI "cors_origins" file)
            parseJsonStrList defaultCorsOrigins with
        | error e => exact ⟨e, rfl⟩
        | ok co =>
          rcases h with ⟨hinit, hp, he | ⟨hen, hf⟩⟩ | ⟨hinit, hp, he | ⟨hen, hf⟩⟩
          · rw [hinit, he, resolveField_env_bad hp] at h2
            exact absurd h2 (by simp)
          · rw [hinit, hen, hf, resolveField_file_bad hp] at h2
            exact absurd h2 (by simp)
          · rw [hinit, he, resolveField_env_bad hp] at h3
            exact absurd h3 (by simp)
          · rw [hinit, hen, hf, resolveField_file_bad hp] at h3
            exact absurd h3 (by simp)
  obtain ⟨msg, hmsg⟩ := hc
  refine ⟨⟨msg, hmsg⟩, msg, ?_⟩
  unfold startup
  rw [hmsg]

/-- Witness for C3: the environment variable DEBUG set to the non-boolean
string maybe, and an override file providing a non-JSON string for
cors_origins with the environment silent, each make construction fail. -/
theorem bad_coercion_aborts_witness :
    (∃ msg, Settings.construct ⟨none, none, none⟩ [("DEBUG", "maybe")] [] =
      Except.error msg) ∧
    (∃ msg, Settings.construct ⟨none, none, none⟩ [] [("CORS_ORIGINS", "not json")] =
      Except.error msg) :=
  ⟨(bad_coercion_aborts ⟨none, none, none⟩ [("DEBUG", "maybe")] [] "maybe"
      (Or.inl ⟨rfl, rfl, Or.inl rfl⟩)).1,
   (bad_coercion_aborts ⟨none, none, none⟩ [] [("CORS_ORIGINS", "not json")] "not json"
      (Or.inr ⟨rfl, rfl, Or.inr ⟨rfl, rfl⟩⟩)).1⟩

/-- Counterexample to C4 as stated: attempted mutation of the Settings
object is not rejected.  The class sets no frozen flag in its model
configuration, so the assignment of debug on the default Settings object
succeeds and yields the updated object instead of being refused. -/
theorem settings_mutation_not_rejected :
    Settings.trySetDebug defaultSettings true ≠ none ∧
    Settings.trySetDebug defaultSettings true =
      some ⟨"My App", true, ["http://localhost:5173"]⟩ :=
  ⟨by decide, rfl⟩

/-- C4 amended: no code path of the repository mutates the Settings object
after startup — every request-handling step returns the settings state
unchanged — but attempted mutation is not rejected: assignment on the
non-frozen class succeeds and produces the updated record. -/
theorem settings_read_only :
    (∀ (st : Settings) (req : Request), (serveStep st req).1 = st) ∧
    (∀ (s : Settings) (b : Bool),
      Settings.trySetDebug s b = some { s with debug := b }) :=
  ⟨fun _ _ => rfl, fun _ _ => rfl⟩

/-- C5: a cross-origin request from an origin present in cors_origins
receives an Access-Control-Allow-Origin header matching that origin,
together with Access-Control-Allow-Credentials true and the wildcard
methods and headers grants; a request from an origin absent from the list
receives no Access-Control-Allow-Origin header at all. -/
theorem cors_policy (s : Settings) (req : Request) (o : String)
    (ho : lookupCI "origin" req.headers = some o) :
    (o ∈ s.cors_origins →
      lookupCI "Access-Control-Allow-Origin"
        (dispatch (buildApp s) req).resp.headers = some o ∧
      lookupCI "Access-Control-Allow-Credentials"
        (dispatch (buildApp s) req).resp.headers = some "true" ∧
      lookupCI "Access-Control-Allow-Methods"
        (dispatch (buildApp s) req).resp.headers = some "*" ∧
      lookupCI "Access-Control-Allow-Headers"
        (dispatch (buildApp s) req).resp.headers = some "*") ∧
    (o ∉ s.cors_origins →
      lookupCI "Access-Control-Allow-Origin"
        (dispatch (buildApp s) req).resp.headers = none) := by
  rw [dispatch_headers, ho]
  constructor
  · intro hmem
    have hif : corsHeaders (buildApp s) (some o) =
        [("Access-Control-Allow-Origin", o),
         ("Access-Control-Allow-Credentials", "true"),
         ("Access-Control-Allow-Methods", "*"),
         ("Access-Control-Allow-Headers", "*")] := by
      unfold corsHeaders
      exact if_pos hmem
    rw [hif]
    exact ⟨rfl, rfl, rfl, rfl⟩
  · intro hmem
    have hif : corsHeaders (buildApp s) (some o) = [] := by
      unfold corsHeaders
      exact if_neg hmem
    rw [hif]
    rfl

/-- Witness for C5: under the default configuration, a request from the
allowed origin localhost port 5173 has that origin echoed, and a request
from an origin outside the list receives no allow-origin header. -/
theorem cors_policy_witness :
    lookupCI "Access-Control-Allow-Origin"
      (dispatch (buildApp defaultSettings)
        ⟨"GET", "/api/health", [("Origin", "http://localhost:5173")]⟩).resp.headers =
      some "http://localhost:5173" ∧
    lookupCI "Access-Control-Allow-Origin"
      (dispatch (buildApp defaultSettings)
        ⟨"GET", "/api/health", [("Origin", "http://evil.example")]⟩).resp.headers = none :=
  ⟨((cors_policy defaultSettings
      ⟨"GET", "/api/health", [("Origin", "http://localhost:5173")]⟩
      "http://localhost:5173" rfl).1 (by decide)).1,
   (cors_policy defaultSettings
      ⟨"GET", "/api/health", [("Origin", "http://evil.example")]⟩
      "http://evil.example" rfl).2 (by decide)⟩

/-- C6: an OPTIONS preflight request to any registered path is answered by
the middleware with status 200 and no application handler is invoked. -/
theorem preflight_no_handler (s : Settings) (req : Request)
    (hm : req.method = "OPTIONS")
    (_hreg : ∃ m, (m, req.path) ∈ appRoutes) :
    (dispatch (buildApp s) req).resp.status = 200 ∧
    (dispatch (buildApp s) req).handlerRan = false := by
  unfold dispatch
  rw [if_pos hm]
  exact ⟨rfl, rfl⟩

/-- Witness for C6: an OPTIONS request to the registered path /api/health
under the default configuration returns 200 without running the handler. -/
theorem preflight_no_handler_witness :
    (dispatch (buildApp defaultSettings) ⟨"OPTIONS", "/api/health", []⟩).resp.status = 200 ∧
    (dispatch (buildApp defaultSettings) ⟨"OPTIONS", "/api/health", []⟩).handlerRan = false :=
  preflight_no_handler defaultSettings ⟨"OPTIONS", "/api/health", []⟩ rfl
    ⟨"GET", by decide⟩

/-- C7: when no constructor argument, environment variable or file value
provides any field, the constructed Settings object is app_name = My App,
debug = false and cors_origins the one-element list of the localhost
port-5173 origin. -/
theorem settings_defaults (env file : List (String × String))
    (hae : lookupCI "app_name" env = none) (haf : lookupCI "app_name" file = none)
    (hde : lookupCI "debug" env = none) (hdf : lookupCI "debug" file = none)
    (hce : lookupCI "cors_origins" env = none) (hcf : lookupCI "cors_origins" file = none) :
    Settings.construct ⟨none, none, none⟩ env file =
      Except.ok ⟨"My App", false, ["http://localhost:5173"]⟩ := by
  simp only [Settings.construct, hae, haf, hde, hdf, hce, hcf]
  rfl

/-- Witness for C7: the empty environment and empty override file yield the
default Settings object. -/
theorem settings_defaults_witness :
    Settings.construct ⟨none, none, none⟩ [] [] =
      Except.ok ⟨"My App", false, ["http://localhost:5173"]⟩ :=
  settings_defaults [] [] rfl rfl rfl rfl rfl rfl

/-- Counterexample to C8 as stated: a configuration providing the empty
string for app_name is not rejected — construction succeeds and the
resulting Settings object carries the empty app_name. -/
theorem empty_app_name_accepted :
    Settings.construct ⟨some "", none, none⟩ [] [] =
      Except.ok ⟨"", false, ["http://localhost:5173"]⟩ := rfl

/-- C8 amended: the default app_name is the non-empty string My App, but no
non-emptiness validation exists — a configuration providing an empty string
for app_name is accepted at construction, whatever the environment and
override file contain. -/
theorem app_name_not_validated :
    (∀ env file : List (String × String),
      Settings.construct ⟨some "", some false, some ["http://localhost:5173"]⟩ env file =
        Except.ok ⟨"", false, ["http://localhost:5173"]⟩) ∧
    defaultAppName ≠ "" :=
  ⟨fun _ _ => rfl, by decide⟩

/-- C9: the status and body of GET /api/health do not depend on any Settings
value — two arbitrary configurations give identical results — while the
assembled application's title equals the configured app_name; in the
concrete scenario APP_NAME=TestApp and DEBUG=true the constructed settings
give the title TestApp. -/
theorem health_independent_of_settings :
    (∀ (s1 s2 : Settings) (h1 h2 : List (String × String)),
      (dispatch (buildApp s1) ⟨"GET", "/api/health", h1⟩).resp.status =
        (dispatch (buildApp s2) ⟨"GET", "/api/health", h2⟩).resp.status ∧
      (dispatch (buildApp s1) ⟨"GET", "/api/health", h1⟩).resp.body =
        (dispatch (buildApp s2) ⟨"GET", "/api/health", h2⟩).resp.body) ∧
    (∀ s : Settings, (buildApp s).title = s.app_name) ∧
    Settings.construct ⟨none, none, none⟩ [("APP_NAME", "TestApp"), ("DEBUG", "true")] [] =
      Except.ok ⟨"TestApp", true, ["http://localhost:5173"]⟩ ∧
    (buildApp ⟨"TestApp", true, ["http://localhost:5173"]⟩).title = "TestApp" :=
  ⟨fun _ _ _ _ => ⟨rfl, rfl⟩, fun _ => rfl, rfl, rfl⟩

/-- C10: a CORS_ORIGINS environment value is decoded as a JSON list of
strings — the JSON form succeeds and yields the decoded list, while any
value that is not a JSON string list (such as a comma-separated plain
string) makes Settings construction raise, aborting startup. -/
theorem cors_origins_json_only :
    Settings.construct ⟨none, none, none⟩
      [("CORS_ORIGINS", "[\"http://a\",\"http://b\"]")] [] =
      Except.ok ⟨"My App", false, ["http://a", "http://b"]⟩ ∧
    (∀ (init : InitArgs) (env file : List (String × String)) (raw : String),
      init.cors_origins = none →
      lookupCI "cors_origins" env = some raw →
      parseJsonStrList raw = none →
      ∃ msg, Settings.construct init env file = Except.error msg) := by
  constructor
  · rfl
  · intro init env file raw hinit he hp
    unfold Settings.construct
    cases h1 : resolveField "app_name" init.app_name (lookupCI "app_name" env)
        (lookupCI "app_name" file) (fun v => some v) defaultAppName with
    | error e => exact ⟨e, rfl⟩
    | ok an =>
      cases h2 : resolveField "debug" init.debug (lookupCI "debug" env)
          (lookupCI "debug" file) parseBool defaultDebug with
      | error e => exact ⟨e, rfl⟩
      | ok db =>
        cases h3 : resolveField "cors_origins" init.cors_origins (lookupCI "cors_origins" env)
            (lookupCI "cors_origins" file) parseJsonStrList defaultCorsOrigins with
        | error e => exact ⟨e, rfl⟩
        | ok co =>
          rw [hinit, he, resolveField_env_bad hp] at h3
          exact absurd h3 (by simp)

/-- Witness for C10: the comma-separated value http a comma http b for
CORS_ORIGINS is not a JSON list, so construction fails on it. -/
theorem cors_origins_json_only_witness :
    ∃ msg, Settings.construct ⟨none, none, none⟩
      [("CORS_ORIGINS", "http://a,http://b")] [] = Except.error msg :=
  cors_origins_json_only.2 ⟨none, none, none⟩ [("CORS_ORIGINS", "http://a,http://b")] []
    "http://a,http://b" rfl rfl rfl
